import Mathlib

/-!
Verification of the BuildingMOTIF library/template loading core against its
specification.  The Python sources embedded here are
`buildingmotif/dataclasses/library.py` and the Alembic migration
`542bfbdef624_constrain_dependencies_to_have_no_.py`.  RDF graphs are
modelled as lists of triples over strings, and the relational store
(libraries, templates, dependency edges, shape collections) as explicit
state threaded through every operation.  Python exceptions become `Except`
values or an `Option LoadErr` component; because the underlying database
session is not rolled back when a loader raises, loader functions return
their (possibly partially populated) state alongside the outcome.
-/

/-- An RDF triple.  Nodes (URIRefs, literals, blank nodes) are strings. -/
structure Triple where
  subj : String
  pred : String
  obj : String
deriving DecidableEq, Repr

/-- An RDF graph, as in `rdflib.Graph`: a set of triples, modelled as a list. -/
abbrev RDFGraph := List Triple

/-- `rdflib.RDF.type` -/
def rdfType : String := "http://www.w3.org/1999/02/22-rdf-syntax-ns#type"

/-- `rdflib.OWL.Ontology` -/
def owlOntology : String := "http://www.w3.org/2002/07/owl#Ontology"

/-- `rdflib.OWL.Class` -/
def owlClass : String := "http://www.w3.org/2002/07/owl#Class"

/-- `rdflib.SH.NodeShape` -/
def shNodeShape : String := "http://www.w3.org/ns/shacl#NodeShape"

/-- `graph.subjects(pred, obj)`: the distinct subjects of triples with the
given predicate and object (rdflib graphs are sets, so we deduplicate). -/
def subjectsOf (g : RDFGraph) (p o : String) : List String :=
  ((g.filter (fun t => t.pred = p && t.obj = o)).map Triple.subj).dedup

/-- Exceptions raised by the modelled code paths. -/
inductive LoadErr where
  /-- `rdflib.exceptions.UniquenessError`, raised by `Graph.value(..., any=False)`
  when more than one value matches.  The spec calls this condition
  `AmbiguousOntologyError`. -/
  | uniquenessError
  /-- database lookup found no row (`sqlalchemy NoResultFound`) -/
  | noResultFound (what : String)
  /-- `ValueError` -/
  | valueError (msg : String)
  /-- database `IntegrityError`: a uniqueness constraint was violated -/
  | integrityError (msg : String)
  /-- a dependency edge insertion would close a cycle -/
  | cyclicDependencyError
  /-- `AttributeError` -/
  | attributeError (msg : String)
deriving DecidableEq, Repr

/-- Row of the `library` table (`database.tables.DBLibrary`).  The name is
optional because `_load_from_ontology_graph` passes `Graph.value`'s result,
which is `None` when the graph declares no ontology. -/
structure DBLibrary where
  id : Nat
  name : Option String
  shape_collection_id : Nat
deriving DecidableEq, Repr

/-- Row of the `template` table (`database.tables.DBTemplate`). -/
structure DBTemplate where
  id : Nat
  name : String
  library_id : Nat
  body : RDFGraph
  optional_args : List String
deriving DecidableEq, Repr

/-- Row of `deps_association_table`.  Per the migration
`542bfbdef624`, the table has a surrogate primary key `id` and a uniqueness
constraint over `(dependant_id, dependee_id, args)`; `args` is the JSON
serialization of the binding map as a list of pairs. -/
structure DepsAssociation where
  id : Nat
  dependant_id : Nat
  dependee_id : Nat
  args : List (String × String)
deriving DecidableEq, Repr

/-- Row of the shape-collection table; each library owns exactly one. -/
structure ShapeCollectionRec where
  id : Nat
  graph : RDFGraph
deriving DecidableEq, Repr

/-- The relational store backing BuildingMOTIF, with fresh-id counters. -/
structure Store where
  libraries : List DBLibrary
  templates : List DBTemplate
  deps : List DepsAssociation
  shape_collections : List ShapeCollectionRec
  nextLibId : Nat
  nextTemplId : Nat
  nextSCId : Nat
  nextDepId : Nat
deriving DecidableEq, Repr

def emptyStore : Store :=
  { libraries := [], templates := [], deps := [], shape_collections := []
    nextLibId := 0, nextTemplId := 0, nextSCId := 0, nextDepId := 0 }

/-- `Template.load(id)`: fetch the template row by id (raises if absent). -/
def Template.load (s : Store) (id : Nat) : Except LoadErr DBTemplate :=
  match s.templates.find? (fun t => t.id = id) with
  | some t => .ok t
  | none => .error (.noResultFound "template id")

/-- `table_connection.get_db_template_by_name(name)`: fetch a template row by
name alone.  Modelled from the spec: the persistence collaborator's lookup
used by `Library.get_template_by_name` receives only the name, so it searches
across all libraries and returns the (unique or first) match. -/
def get_db_template_by_name (s : Store) (name : String) : Except LoadErr DBTemplate :=
  match s.templates.find? (fun t => t.name = name) with
  | some t => .ok t
  | none => .error (.noResultFound "template name")

/-- `Library.load(name=...)` resolved against the store: fetch the library row
by name. -/
def get_db_library_by_name (s : Store) (name : String) : Except LoadErr DBLibrary :=
  match s.libraries.find? (fun l => l.name = some name) with
  | some l => .ok l
  | none => .error (.noResultFound "library name")

/-- `Library.get_template_by_name(name)` (library.py lines 378-390): look the
row up by name alone, then raise `ValueError` unless it belongs to this
library. -/
def Library.get_template_by_name (s : Store) (libId : Nat) (name : String) :
    Except LoadErr DBTemplate :=
  match get_db_template_by_name s name with
  | .error e => .error e
  | .ok dbt =>
    if dbt.library_id ≠ libId then
      .error (.valueError "Template not in library")
    else
      Template.load s dbt.id

/-- `Library.get_templates()`: all template rows owned by the library, in
insertion order. -/
def Library.get_templates (s : Store) (libId : Nat) : List DBTemplate :=
  s.templates.filter (fun t => t.library_id = libId)

/-- `table_connection.create_db_library(name)` as called by `Library.create`.
Modelled from the spec: the store enforces global uniqueness of library
names ("Library name is globally unique"), and creating a library also
creates its exclusively owned ShapeCollection. -/
def create_db_library (s : Store) (name : Option String) :
    Except LoadErr (DBLibrary × Store) :=
  if s.libraries.any (fun l => name.isSome && l.name = name) then
    .error (.integrityError "library name not unique")
  else
    let lib : DBLibrary :=
      { id := s.nextLibId, name := name, shape_collection_id := s.nextSCId }
    let sc : ShapeCollectionRec := { id := s.nextSCId, graph := [] }
    .ok (lib,
      { s with
        libraries := s.libraries ++ [lib]
        shape_collections := s.shape_collections ++ [sc]
        nextLibId := s.nextLibId + 1
        nextSCId := s.nextSCId + 1 })

/-- `Library.create_template(name, body, optional_args)` (library.py lines
321-356): create the template row and its body graph.  Modelled from the
spec for the persistence layer's failure mode: "Template name is unique
within its owning Library only", so creation fails when the library already
holds a template of that name. -/
def Library.create_template (s : Store) (libId : Nat) (name : String)
    (body : RDFGraph) (optional_args : List String) :
    Except LoadErr (DBTemplate × Store) :=
  if s.templates.any (fun t => t.library_id = libId && t.name = name) then
    .error (.integrityError "template name not unique in library")
  else
    let t : DBTemplate :=
      { id := s.nextTemplId, name := name, library_id := libId
        body := body, optional_args := optional_args }
    .ok (t, { s with templates := s.templates ++ [t], nextTemplId := s.nextTemplId + 1 })

/-- `ShapeCollection.add_graph` at the end of both loaders: merge a graph into
a stored shape collection. -/
def add_to_shape_collection (s : Store) (scId : Nat) (g : RDFGraph) : Store :=
  { s with
    shape_collections :=
      s.shape_collections.map
        (fun sc => if sc.id = scId then { sc with graph := sc.graph ++ g } else sc) }

/-- The `_template_dependency` dataclass: an early-bound (`template_id`) or
late-bound (`template_name` + `library`) dependency of one template on
another. -/
structure TemplateDependency where
  template_name : String
  bindings : List (String × String)
  library : String
  template_id : Option Nat := none
deriving DecidableEq, Repr

/-- A raw dependency dictionary as read from a directory-mode YAML spec:
keys `template`, `args`, `library` (optional), `template_id` (optional). -/
structure DepDict where
  template : String
  args : List (String × String)
  library : Option String := none
  template_id : Option Nat := none
deriving DecidableEq, Repr

/-- `_template_dependency.from_dict`: the `library` key defaults to the
dependent library's name. -/
def TemplateDependency.from_dict (d : DepDict) (dependent_library_name : String) :
    TemplateDependency :=
  { template_name := d.template
    bindings := d.args
    library := d.library.getD dependent_library_name
    template_id := d.template_id }

/-- `_template_dependency.to_template(id_lookup)` (library.py lines 58-76):
resolve this dependency to a template row.  Explicit id first; then the
batch-local name table (`id_lookup`, newest entry first); then the named
library and the named template within it. -/
def TemplateDependency.to_template (dep : TemplateDependency)
    (id_lookup : List (String × Nat)) (s : Store) : Except LoadErr DBTemplate :=
  match dep.template_id with
  | some i => Template.load s i
  | none =>
    match id_lookup.find? (fun p => p.1 = dep.template_name) with
    | some p => Template.load s p.2
    | none =>
      match get_db_library_by_name s dep.library with
      | .error e => .error e
      | .ok lib => Library.get_template_by_name s lib.id dep.template_name

/-- The in-memory `Library` dataclass handle: fields `_id` and `_name`. -/
structure LibraryHandle where
  lib_id : Nat
  lib_name : String
deriving DecidableEq, Repr

/-- The `Library.id` property getter (library.py lines 304-306): returns the
stored id (typed `Optional[int]` in the source). -/
def LibraryHandle.id_get (l : LibraryHandle) : Option Nat :=
  some l.lib_id

/-- The `Library.id` property setter (library.py lines 308-310): it raises
`AttributeError` unconditionally, before any state change, so the result is
always an error and no updated handle is ever produced. -/
def LibraryHandle.id_set (_l : LibraryHandle) (_new_id : Nat) :
    Except LoadErr LibraryHandle :=
  .error (.attributeError "Cannot modify db id")

/-- The triple of columns covered by `deps_association_unique_constraint`. -/
def DepsAssociation.triple (r : DepsAssociation) : Nat × Nat × List (String × String) :=
  (r.dependant_id, r.dependee_id, r.args)

/-- Insertion into `deps_association_table`.  Modelled from the migration
`542bfbdef624`: the uniqueness constraint over
`(dependant_id, dependee_id, args)` makes inserting a row whose triple
already exists fail with `IntegrityError`, leaving the table unchanged. -/
def insert_dep_row (s : Store) (dependant dependee : Nat)
    (args : List (String × String)) : Store × Option LoadErr :=
  if s.deps.any (fun r =>
      r.dependant_id = dependant && r.dependee_id = dependee && r.args = args) then
    (s, some (.integrityError "duplicate dependency"))
  else
    ({ s with
        deps := s.deps ++
          [{ id := s.nextDepId, dependant_id := dependant
             dependee_id := dependee, args := args }]
        nextDepId := s.nextDepId + 1 },
     none)

/-- No two rows of the dependency table agree on all three constrained
columns. -/
def UniqueDepTriples (l : List DepsAssociation) : Prop :=
  (l.map DepsAssociation.triple).Nodup

/-! ### Claims C10, C8, C9, C5 -/

/-- **C10.** For every Library instance, assigning to the `id` property raises
`AttributeError` and no updated handle is ever produced: the id fixed at
creation is never modified through the public interface. -/
theorem c10_library_id_immutable :
    ∀ (l : LibraryHandle) (n : Nat),
      LibraryHandle.id_set l n = .error (.attributeError "Cannot modify db id")
      ∧ ∀ l' : LibraryHandle, LibraryHandle.id_set l n ≠ .ok l' := by
  intro l n
  exact ⟨rfl, fun l' h => by simp [LibraryHandle.id_set] at h⟩

/-- **C8.** The dependency table carries a uniqueness constraint over
`(dependant_id, dependee_id, args)`: inserting a row whose triple already
exists fails (leaving the table unchanged), and successful insertions
preserve the invariant that no two rows share a triple. -/
theorem c8_dependency_triple_unique :
    ∀ (s : Store) (d e : Nat) (a : List (String × String)),
      ((∃ r ∈ s.deps, r.dependant_id = d ∧ r.dependee_id = e ∧ r.args = a) →
        insert_dep_row s d e a = (s, some (.integrityError "duplicate dependency")))
      ∧ (UniqueDepTriples s.deps →
          ∀ s', insert_dep_row s d e a = (s', none) → UniqueDepTriples s'.deps) := by
  intro s d e a
  constructor
  · rintro ⟨r, hr, h1, h2, h3⟩
    have hany : s.deps.any (fun r =>
        r.dependant_id = d && r.dependee_id = e && r.args = a) = true := by
      refine List.any_eq_true.mpr ⟨r, hr, ?_⟩
      simp [h1, h2, h3]
    simp [insert_dep_row, hany]
  · intro hu s' hins
    by_cases hany : s.deps.any (fun r =>
        r.dependant_id = d && r.dependee_id = e && r.args = a) = true
    · simp [insert_dep_row, hany] at hins
    · simp only [Bool.not_eq_true] at hany
      simp only [insert_dep_row, hany, Bool.false_eq_true, if_false] at hins
      obtain ⟨hs, -⟩ := Prod.mk.injEq .. ▸ hins
      subst hs
      unfold UniqueDepTriples
      rw [List.map_append, List.nodup_append]
      refine ⟨hu, by simp, ?_⟩
      intro x hx
      simp only [List.map_cons, List.map_nil, List.mem_singleton]
      intro hx1
      obtain ⟨r, hr, hrx⟩ := List.mem_map.mp hx
      have hfalse := List.any_eq_false.mp hany r hr
      simp only [Bool.and_eq_true, decide_eq_true_eq, not_and] at hfalse
      rw [hx1] at hrx
      simp [DepsAssociation.triple, Prod.ext_iff] at hrx
      obtain ⟨h1, h2, h3⟩ := hrx
      simp [h1, h2, h3] at hfalse

/-- Witness for C8 at a concrete store: a table holding the triple
`(7, 8, [("p","q")])` rejects a second row with the same triple. -/
theorem c8_dependency_triple_unique_witness :
    insert_dep_row
      { emptyStore with
        deps := [{ id := 0, dependant_id := 7, dependee_id := 8, args := [("p", "q")] }]
        nextDepId := 1 }
      7 8 [("p", "q")]
    = ({ emptyStore with
          deps := [{ id := 0, dependant_id := 7, dependee_id := 8, args := [("p", "q")] }]
          nextDepId := 1 },
       some (.integrityError "duplicate dependency")) := by
  apply (c8_dependency_triple_unique _ 7 8 [("p", "q")]).1
  refine ⟨_, List.mem_singleton.mpr rfl, by decide, by decide, by decide⟩

/-- **C9.** `Library.get_template_by_name` returns a template only when the
row it retrieves by name belongs to this library, and raises `ValueError`
when that row belongs to a different library; because the underlying lookup
is by name alone, a same-named template owned by a different library can
trigger this error even when this library owns a template of that name. -/
theorem c9_get_template_by_name_checks_library :
    ∀ (s : Store) (libId : Nat) (name : String),
      (∀ r, get_db_template_by_name s name = .ok r → r.library_id ≠ libId →
        Library.get_template_by_name s libId name =
          .error (.valueError "Template not in library"))
      ∧ (∀ t, Library.get_template_by_name s libId name = .ok t →
          ∃ r, get_db_template_by_name s name = .ok r ∧ r.library_id = libId
            ∧ Template.load s r.id = .ok t)
      ∧ (∃ s' : Store,
          (∃ r' ∈ s'.templates, r'.name = "t" ∧ r'.library_id = 0)
          ∧ Library.get_template_by_name s' 0 "t" =
              .error (.valueError "Template not in library")) := by
  intro s libId name
  refine ⟨?_, ?_, ?_⟩
  · intro r hr hne
    simp [Library.get_template_by_name, hr, hne]
  · intro t ht
    unfold Library.get_template_by_name at ht
    cases hdb : get_db_template_by_name s name with
    | error e => simp [hdb] at ht
    | ok r =>
      rw [hdb] at ht
      by_cases hlib : r.library_id = libId
      · simp only [hlib, ne_eq, not_true_eq_false, if_false, ite_false] at ht
        exact ⟨r, rfl, hlib, ht⟩
      · simp [hlib] at ht
  · refine ⟨{ emptyStore with
        templates :=
          [{ id := 0, name := "t", library_id := 1, body := [], optional_args := [] },
           { id := 1, name := "t", library_id := 0, body := [], optional_args := [] }]
        nextTemplId := 2, nextLibId := 2 }, ?_, ?_⟩
    · exact ⟨{ id := 1, name := "t", library_id := 0, body := [], optional_args := [] },
        by simp, rfl, rfl⟩
    · rfl

/-- Witness for C9 at a concrete store: the only row named "a" belongs to
library 5, so library 3's lookup of "a" raises `ValueError`. -/
theorem c9_get_template_by_name_checks_library_witness :
    Library.get_template_by_name
      { emptyStore with
        templates := [{ id := 0, name := "a", library_id := 5, body := [], optional_args := [] }]
        nextTemplId := 1 }
      3 "a" = .error (.valueError "Template not in library") := by
  apply (c9_get_template_by_name_checks_library _ 3 "a").1
  · rfl
  · decide

/-- **C5.** `_template_dependency.to_template` resolves in exactly three
steps: an explicit template id is loaded directly with no further lookup;
otherwise a batch-local table hit is used (for every store, so it shadows
any persisted row of the same name and library); otherwise the named
library is loaded and the named template looked up within it. -/
theorem c5_to_template_three_step_resolution :
    ∀ (dep : TemplateDependency) (id_lookup : List (String × Nat)) (s : Store),
      (∀ i, dep.template_id = some i →
        dep.to_template id_lookup s = Template.load s i)
      ∧ (∀ p, dep.template_id = none →
          id_lookup.find? (fun q => q.1 = dep.template_name) = some p →
          dep.to_template id_lookup s = Template.load s p.2)
      ∧ (dep.template_id = none →
          id_lookup.find? (fun q => q.1 = dep.template_name) = none →
          dep.to_template id_lookup s =
            match get_db_library_by_name s dep.library with
            | .error e => .error e
            | .ok lib => Library.get_template_by_name s lib.id dep.template_name) := by
  intro dep id_lookup s
  refine ⟨?_, ?_, ?_⟩
  · intro i hi
    simp [TemplateDependency.to_template, hi]
  · intro p hnone hfind
    simp [TemplateDependency.to_template, hnone, hfind]
  · intro hnone hfind
    simp [TemplateDependency.to_template, hnone, hfind]

/-- Witness for C5: in a store persisting a template named "w" with id 9 in
library "L", a batch-local table entry `("w", 3)` shadows it, and the
resolution returns the template with id 3. -/
theorem c5_to_template_three_step_resolution_witness :
    TemplateDependency.to_template
      { template_name := "w", bindings := [], library := "L", template_id := none }
      [("w", 3)]
      { emptyStore with
        libraries := [{ id := 0, name := some "L", shape_collection_id := 0 }]
        templates :=
          [{ id := 9, name := "w", library_id := 0, body := [], optional_args := [] },
           { id := 3, name := "w", library_id := 0, body := [], optional_args := [] }]
        nextLibId := 1, nextTemplId := 10 }
    = .ok { id := 3, name := "w", library_id := 0, body := [], optional_args := [] } := by
  have h := (c5_to_template_three_step_resolution
      { template_name := "w", bindings := [], library := "L", template_id := none }
      [("w", 3)]
      { emptyStore with
        libraries := [{ id := 0, name := some "L", shape_collection_id := 0 }]
        templates :=
          [{ id := 9, name := "w", library_id := 0, body := [], optional_args := [] },
           { id := 3, name := "w", library_id := 0, body := [], optional_args := [] }]
        nextLibId := 1, nextTemplId := 10 }).2.1 ("w", 3) rfl (by rfl)
  rw [h]
  rfl

/-! ### Dependency-edge insertion and cycle detection (claim C7)

`Template.add_dependency` lives in `buildingmotif/dataclasses/template.py`,
which is not among the provided sources, so it is modelled from the spec
(§4.1 and the data-model invariants). -/

/-- The directed dependency edges currently recorded in the store, as
(dependant, dependee) pairs. -/
def edgesOf (s : Store) : List (Nat × Nat) :=
  s.deps.map (fun d => (d.dependant_id, d.dependee_id))

/-- One saturation step of forward reachability: add the target of every
edge whose source is already in the set. -/
def depStep (es : List (Nat × Nat)) (S : Finset Nat) : Finset Nat :=
  S ∪ ((es.filter (fun e => decide (e.1 ∈ S))).map Prod.snd).toFinset

/-- The targets of all edges; every node reachable in one or more steps is
among them. -/
def targetsOf (es : List (Nat × Nat)) : Finset Nat :=
  (es.map Prod.snd).toFinset

/-- The immediate successors of `b`. -/
def initFrom (es : List (Nat × Nat)) (b : Nat) : Finset Nat :=
  ((es.filter (fun e => decide (e.1 = b))).map Prod.snd).toFinset

/-- The nodes reachable from `b` in at least one step, computed by
saturating one more time than there are distinct edge targets. -/
def reachSetFrom (es : List (Nat × Nat)) (b : Nat) : Finset Nat :=
  (depStep es)^[(targetsOf es).card + 1] (initFrom es b)

/-- Decidable reachability test used by the modelled cycle check. -/
def reachB (es : List (Nat × Nat)) (x y : Nat) : Bool :=
  decide (y ∈ reachSetFrom es x)

/-- Modelled from the spec: `Template.add_dependency(other, bindings)`
(§4.1), whose defining source file is not among those provided.  It
"rejects if adding the edge would close a cycle, leaving the dependency
list unchanged on rejection" (the data model also forbids self-loops);
otherwise the edge is recorded in the dependency table, whose uniqueness
constraint rejects exact duplicates. -/
def Template.add_dependency (s : Store) (dependant dependee : Nat)
    (bindings : List (String × String)) : Store × Option LoadErr :=
  if dependant = dependee || reachB (edgesOf s) dependee dependant then
    (s, some .cyclicDependencyError)
  else
    insert_dep_row s dependant dependee bindings

/-- `Reaches es a b`: there is a nonempty directed path from `a` to `b`
along the edges `es`. -/
def Reaches (es : List (Nat × Nat)) : Nat → Nat → Prop :=
  Relation.TransGen (fun x y => (x, y) ∈ es)

/-- The dependency relation has no nonempty cycle. -/
def Acyclic (es : List (Nat × Nat)) : Prop :=
  ∀ x, ¬ Reaches es x x

lemma subset_depStep (es : List (Nat × Nat)) (S : Finset Nat) : S ⊆ depStep es S :=
  Finset.subset_union_left

lemma subset_iterate_depStep (es : List (Nat × Nat)) :
    ∀ (n : Nat) (S : Finset Nat), S ⊆ (depStep es)^[n] S := by
  intro n
  induction n with
  | zero => intro S; simp
  | succ n ih =>
    intro S
    rw [Function.iterate_succ_apply]
    exact (subset_depStep es S).trans (ih (depStep es S))

lemma mem_depStep_of_edge {es : List (Nat × Nat)} {S : Finset Nat} {x y : Nat}
    (hx : x ∈ S) (hxy : (x, y) ∈ es) : y ∈ depStep es S := by
  refine Finset.mem_union_right _ ?_
  simp only [List.mem_toFinset, List.mem_map]
  exact ⟨(x, y), List.mem_filter.mpr ⟨hxy, by simpa using hx⟩, rfl⟩

lemma depStep_subset_union_targets (es : List (Nat × Nat)) (S : Finset Nat) :
    depStep es S ⊆ S ∪ targetsOf es := by
  intro y hy
  rcases Finset.mem_union.mp hy with h | h
  · exact Finset.mem_union_left _ h
  · refine Finset.mem_union_right _ ?_
    simp only [List.mem_toFinset, List.mem_map] at h
    obtain ⟨e, he, hey⟩ := h
    exact List.mem_toFinset.mpr (List.mem_map.mpr ⟨e, (List.mem_filter.mp he).1, hey⟩)

lemma iterate_depStep_subset_targets (es : List (Nat × Nat)) :
    ∀ (n : Nat) (S : Finset Nat), S ⊆ targetsOf es →
      (depStep es)^[n] S ⊆ targetsOf es := by
  intro n
  induction n with
  | zero => intro S hS; simpa using hS
  | succ n ih =>
    intro S hS
    rw [Function.iterate_succ_apply]
    exact ih (depStep es S)
      ((depStep_subset_union_targets es S).trans
        (Finset.union_subset hS (Finset.Subset.refl _)))

lemma initFrom_subset_targets (es : List (Nat × Nat)) (b : Nat) :
    initFrom es b ⊆ targetsOf es := by
  intro y hy
  simp only [initFrom, List.mem_toFinset, List.mem_map] at hy
  obtain ⟨e, he, hey⟩ := hy
  exact List.mem_toFinset.mpr (List.mem_map.mpr ⟨e, (List.mem_filter.mp he).1, hey⟩)

lemma depStep_card_lt {es : List (Nat × Nat)} {S : Finset Nat}
    (h : ¬ depStep es S = S) : S.card < (depStep es S).card :=
  Finset.card_lt_card
    (Finset.ssubset_iff_subset_ne.mpr ⟨subset_depStep es S, fun heq => h heq.symm⟩)

lemma iterate_fix_or_card (es : List (Nat × Nat)) (S₀ : Finset Nat) :
    ∀ k : Nat,
      (∃ j, j ≤ k ∧ depStep es ((depStep es)^[j] S₀) = (depStep es)^[j] S₀)
        ∨ S₀.card + k ≤ ((depStep es)^[k] S₀).card := by
  intro k
  induction k with
  | zero => right; simp
  | succ k ih =>
    rcases ih with ⟨j, hj, hfix⟩ | hcard
    · exact Or.inl ⟨j, Nat.le_succ_of_le hj, hfix⟩
    · by_cases hfx : depStep es ((depStep es)^[k] S₀) = (depStep es)^[k] S₀
      · exact Or.inl ⟨k, Nat.le_succ k, hfx⟩
      · right
        rw [Function.iterate_succ_apply']
        have := depStep_card_lt hfx
        omega

lemma reachSetFrom_closed (es : List (Nat × Nat)) (b : Nat) :
    depStep es (reachSetFrom es b) = reachSetFrom es b := by
  rcases iterate_fix_or_card es (initFrom es b) ((targetsOf es).card + 1) with
    ⟨j, hj, hfix⟩ | hcard
  · have h1 : (depStep es)^[(targetsOf es).card + 1] (initFrom es b)
        = (depStep es)^[j] (initFrom es b) := by
      have hN : (targetsOf es).card + 1 = ((targetsOf es).card + 1 - j) + j := by omega
      rw [hN, Function.iterate_add_apply, Function.iterate_fixed hfix]
    show depStep es ((depStep es)^[(targetsOf es).card + 1] (initFrom es b))
      = (depStep es)^[(targetsOf es).card + 1] (initFrom es b)
    rw [h1]
    exact hfix
  · exfalso
    have h2 : ((depStep es)^[(targetsOf es).card + 1] (initFrom es b)).card
        ≤ (targetsOf es).card :=
      Finset.card_le_card
        (iterate_depStep_subset_targets es _ _ (initFrom_subset_targets es b))
    omega

lemma reachSetFrom_closed_edge {es : List (Nat × Nat)} {b x y : Nat}
    (hx : x ∈ reachSetFrom es b) (hxy : (x, y) ∈ es) : y ∈ reachSetFrom es b := by
  have h := mem_depStep_of_edge hx hxy
  rwa [reachSetFrom_closed es b] at h

lemma mem_reachSetFrom_of_edge {es : List (Nat × Nat)} {b y : Nat}
    (h : (b, y) ∈ es) : y ∈ reachSetFrom es b := by
  apply subset_iterate_depStep es _ (initFrom es b)
  simp only [initFrom, List.mem_toFinset, List.mem_map]
  exact ⟨(b, y), List.mem_filter.mpr ⟨h, by simp⟩, rfl⟩

/-- Completeness of the saturation: every node reachable from `b` lies in
the computed set. -/
lemma reaches_mem_reachSetFrom {es : List (Nat × Nat)} {b a : Nat}
    (h : Reaches es b a) : a ∈ reachSetFrom es b := by
  unfold Reaches at h
  induction h with
  | single h => exact mem_reachSetFrom_of_edge h
  | tail h₁ h₂ ih => exact reachSetFrom_closed_edge ih h₂

lemma transGen_union_single {R : Nat → Nat → Prop} {a b : Nat}
    (hba : ¬ Relation.ReflTransGen R b a) :
    ∀ {x y : Nat}, Relation.TransGen (fun u v => R u v ∨ (u = a ∧ v = b)) x y →
      Relation.TransGen R x y ∨
        (Relation.ReflTransGen R x a ∧ Relation.ReflTransGen R b y) := by
  intro x y h
  induction h with
  | single h =>
    rcases h with h | ⟨rfl, rfl⟩
    · exact Or.inl (Relation.TransGen.single h)
    · exact Or.inr ⟨Relation.ReflTransGen.refl, Relation.ReflTransGen.refl⟩
  | tail h₁ h₂ ih =>
    rcases h₂ with h₂ | ⟨rfl, rfl⟩
    · rcases ih with ih | ⟨ihxa, ihby⟩
      · exact Or.inl (ih.tail h₂)
      · exact Or.inr ⟨ihxa, ihby.tail h₂⟩
    · rcases ih with ih | ⟨ihxa, ihby⟩
      · exact Or.inr ⟨ih.to_reflTransGen, Relation.ReflTransGen.refl⟩
      · exact absurd ihby hba

/-- Adding the edge `(a, b)` to an acyclic edge list keeps it acyclic,
provided `a ≠ b` and `a` is not reachable from `b`. -/
lemma acyclic_insert {es : List (Nat × Nat)} {a b : Nat}
    (hac : Acyclic es) (hab : a ≠ b) (hba : ¬ Reaches es b a) :
    Acyclic (es ++ [(a, b)]) := by
  intro x hx
  unfold Reaches at hx
  have hba' : ¬ Relation.ReflTransGen (fun u v => (u, v) ∈ es) b a := by
    intro h
    rcases Relation.reflTransGen_iff_eq_or_transGen.mp h with heq | htg
    · exact hab heq
    · exact hba htg
  have hx' : Relation.TransGen (fun u v => (u, v) ∈ es ∨ (u = a ∧ v = b)) x x := by
    refine Relation.TransGen.mono ?_ hx
    intro u v huv
    rcases List.mem_append.mp huv with h | h
    · exact Or.inl h
    · have h' := List.mem_singleton.mp h
      simp only [Prod.mk.injEq] at h'
      exact Or.inr h'
  rcases transGen_union_single hba' hx' with h | ⟨hxa, hbx⟩
  · exact hac x h
  · exact hba' (hbx.trans hxa)

/-- **C7.** Adding a dependency edge from A to B that would close a cycle
(including a self-loop) is rejected at insertion time; any rejected
insertion leaves the dependency table unchanged; and a successful insertion
preserves acyclicity of the dependency relation. -/
theorem c7_add_dependency_keeps_acyclic :
    ∀ (s : Store) (a b : Nat) (bindings : List (String × String)),
      ((a = b ∨ Reaches (edgesOf s) b a) →
        Template.add_dependency s a b bindings = (s, some .cyclicDependencyError))
      ∧ (∀ s' e, Template.add_dependency s a b bindings = (s', some e) →
          s'.deps = s.deps)
      ∧ (Acyclic (edgesOf s) →
          ∀ s', Template.add_dependency s a b bindings = (s', none) →
            Acyclic (edgesOf s')) := by
  intro s a b bindings
  refine ⟨?_, ?_, ?_⟩
  · intro h
    have hcond : (a = b || reachB (edgesOf s) b a) = true := by
      rcases h with h | h
      · simp [h]
      · have := reaches_mem_reachSetFrom h
        simp [reachB, this]
    unfold Template.add_dependency
    rw [if_pos ?_]
    · simpa using hcond
  · intro s' e h
    unfold Template.add_dependency at h
    by_cases hcond : (a = b || reachB (edgesOf s) b a) = true
    · rw [if_pos (by simpa using hcond)] at h
      exact (Prod.mk.injEq .. ▸ h).1 ▸ rfl
    · rw [if_neg (by simpa using hcond)] at h
      unfold insert_dep_row at h
      by_cases hdup : (s.deps.any (fun r =>
          r.dependant_id = a && r.dependee_id = b && r.args = bindings)) = true
      · rw [if_pos hdup] at h
        exact (Prod.mk.injEq .. ▸ h).1 ▸ rfl
      · rw [if_neg hdup] at h
        exact absurd (Prod.mk.injEq .. ▸ h).2 (by simp)
  · intro hac s' h
    unfold Template.add_dependency at h
    by_cases hcond : (a = b || reachB (edgesOf s) b a) = true
    · rw [if_pos (by simpa using hcond)] at h
      exact absurd (Prod.mk.injEq .. ▸ h).2 (by simp)
    · rw [if_neg (by simpa using hcond)] at h
      simp only [Bool.or_eq_true, not_or, decide_eq_true_eq] at hcond
      obtain ⟨hab, hrb⟩ := hcond
      have hba : ¬ Reaches (edgesOf s) b a := fun hr =>
        hrb (by simp [reachB, reaches_mem_reachSetFrom hr])
      unfold insert_dep_row at h
      by_cases hdup : (s.deps.any (fun r =>
          r.dependant_id = a && r.dependee_id = b && r.args = bindings)) = true
      · rw [if_pos hdup] at h
        exact absurd (Prod.mk.injEq .. ▸ h).2 (by simp)
      · rw [if_neg hdup] at h
        have hs' := (Prod.mk.injEq .. ▸ h).1
        have hedges : edgesOf s' = edgesOf s ++ [(a, b)] := by
          rw [← hs']
          simp [edgesOf]
        rw [hedges]
        exact acyclic_insert hac hab hba

/-- Witness for C7 at a concrete store: with the single recorded edge
1 → 2, inserting the closing edge 2 → 1 is rejected and the store is
returned unchanged. -/
theorem c7_add_dependency_keeps_acyclic_witness :
    Template.add_dependency
      { emptyStore with
        deps := [{ id := 0, dependant_id := 1, dependee_id := 2, args := [] }]
        nextDepId := 1 }
      2 1 []
    = ({ emptyStore with
          deps := [{ id := 0, dependant_id := 1, dependee_id := 2, args := [] }]
          nextDepId := 1 },
       some .cyclicDependencyError) := by
  apply (c7_add_dependency_keeps_acyclic _ 2 1 []).1
  exact Or.inr (Relation.TransGen.single (by simp [edgesOf]))

/-! ### The two library loaders (claims C1, C2, C3, C4, C6) -/

/-- In-memory state of a load: the store plus the log of reported
warnings/errors. -/
structure LState where
  store : Store
  warnings : List String
deriving DecidableEq, Repr

/-- Early-exit fold: process items until one reports an error, keeping all
state changes made so far (the DB session is not rolled back when an
exception propagates). -/
def foldE {α σ : Type} (f : σ → α → σ × Option LoadErr) :
    List α → σ → σ × Option LoadErr
  | [], s => (s, none)
  | a :: rest, s =>
    match f s a with
    | (s', none) => foldE f rest s'
    | (s', some e) => (s', some e)

/-- Accumulator of pass 1 in either loader mode: the load state, the
batch-local `template_id_lookup` (name to id, newest first, matching dict
overwrite semantics) and the `dependency_cache` keyed by new template id. -/
structure Pass1Acc (δ : Type) where
  st : LState
  lookup : List (String × Nat)
  cache : List (Nat × List δ)

/-- One template definition parsed from a directory's YAML files, after the
external template-spec compiler (`compile_template_spec`) has expanded its
body rules: the declared name, the literal body, the `optional` list, and
the raw dependency dictionaries popped from the spec. -/
structure DirEntry where
  name : String
  body : RDFGraph
  optional : List String := []
  dependencies : List DepDict := []
deriving DecidableEq, Repr

/-- Pass 1 of `Library._load_from_directory` (library.py lines 264-286):
for each entry create the template (logging and re-raising on failure) and
cache its raw dependencies. -/
def dirPass1 (dirName : String) (libId : Nat) :
    List DirEntry → Pass1Acc TemplateDependency →
      Pass1Acc TemplateDependency × Option LoadErr
  | [], acc => (acc, none)
  | entry :: rest, acc =>
    match Library.create_template acc.st.store libId entry.name entry.body
        entry.optional with
    | .error e =>
      ({ acc with
          st := { acc.st with
            warnings := acc.st.warnings ++ ["Error creating template"] } },
       some e)
    | .ok (t, store') =>
      dirPass1 dirName libId rest
        { st := { acc.st with store := store' }
          lookup := (t.name, t.id) :: acc.lookup
          cache := (t.id, entry.dependencies.map
            (fun d => TemplateDependency.from_dict d dirName)) :: acc.cache }

/-- Body of the directory-mode pass-2 loop for one raw dependency
(library.py lines 291-297): resolve via `to_template` and attach the edge;
any exception is logged as a warning and then re-raised. -/
def dirProcessDep (id_lookup : List (String × Nat)) (dependantId : Nat)
    (st : LState) (dep : TemplateDependency) : LState × Option LoadErr :=
  match dep.to_template id_lookup st.store with
  | .error e =>
    ({ st with
        warnings := st.warnings ++ ["Warning: could not resolve dependency"] },
     some e)
  | .ok dependee =>
    match Template.add_dependency st.store dependantId dependee.id dep.bindings with
    | (store', none) => ({ st with store := store' }, none)
    | (store', some e) =>
      ({ store := store'
         warnings := st.warnings ++ ["Warning: could not resolve dependency"] },
       some e)

/-- The pass-2 loop shared by both loaders (library.py lines 216-224 and
288-297): iterate the library's templates, look each up in the dependency
cache, and process its raw dependency specs in order. -/
def pass2 {δ : Type} (processDep : Nat → LState → δ → LState × Option LoadErr)
    (cache : List (Nat × List δ)) (templates : List DBTemplate) (st : LState) :
    LState × Option LoadErr :=
  foldE (fun st t =>
      match cache.find? (fun p => p.1 = t.id) with
      | none => (st, none)
      | some p => foldE (processDep t.id) p.2 st)
    templates st

/-- `Library._load_from_directory` (library.py lines 247-302).  YAML parsing
and the template-spec compiler are external collaborators; `entries` is the
list of already-expanded template definitions found in the directory's YAML
files, and `shapeGraph` the union of the graphs that
`_load_shapes_from_directory` parses from the directory's ontology files. -/
def Library.load_from_directory (dirName : String) (entries : List DirEntry)
    (shapeGraph : RDFGraph) (st : LState) : LState × Except LoadErr Nat :=
  match create_db_library st.store (some dirName) with
  | .error e => (st, .error e)
  | .ok (lib, store') =>
    match dirPass1 dirName lib.id entries
        { st := { st with store := store' }, lookup := [], cache := [] } with
    | (acc, some e) => (acc.st, .error e)
    | (acc, none) =>
      match pass2 (dirProcessDep acc.lookup) acc.cache
          (Library.get_templates acc.st.store lib.id) acc.st with
      | (st2, some e) => (st2, .error e)
      | (st2, none) =>
        ({ st2 with
            store := add_to_shape_collection st2.store lib.shape_collection_id
              shapeGraph },
         .ok lib.id)

/-- A raw dependency dict produced by the shape-to-template extractor in
ontology mode: keys `template` and `args`. -/
structure OntDep where
  template : String
  args : List (String × String)
deriving DecidableEq, Repr

/-- `Graph.value(predicate=RDF.type, object=OWL.Ontology, any=False)`
(library.py lines 193-195): `None` when no subject matches, the subject
when exactly one does, and `rdflib.exceptions.UniquenessError` when more
than one does. -/
def ontology_name_of (g : RDFGraph) : Except LoadErr (Option String) :=
  match subjectsOf g rdfType owlOntology with
  | [] => .ok none
  | [s] => .ok (some s)
  | _ => .error .uniquenessError

/-- The candidate shapes (library.py lines 198-200): subjects declared both
an `owl:Class` and a `sh:NodeShape`. -/
def candidatesOf (g : RDFGraph) : List String :=
  (subjectsOf g rdfType owlClass).filter
    (fun c => decide (c ∈ subjectsOf g rdfType shNodeShape))

/-- Pass 1 of `Library._load_from_ontology_graph` (library.py lines
206-213): one template per candidate, named after the shape's identifier,
with the extractor's raw dependency dicts cached under the new id.  A
creation failure is uncaught here and aborts the load. -/
def ontPass1 (extract : String → RDFGraph → RDFGraph × List OntDep)
    (g : RDFGraph) (libId : Nat) :
    List String → Pass1Acc OntDep → Pass1Acc OntDep × Option LoadErr
  | [], acc => (acc, none)
  | c :: rest, acc =>
    match Library.create_template acc.st.store libId c (extract c g).1 [] with
    | .error e => (acc, some e)
    | .ok (t, store') =>
      ontPass1 extract g libId rest
        { st := { acc.st with store := store' }
          lookup := (c, t.id) :: acc.lookup
          cache := (t.id, (extract c g).2) :: acc.cache }

/-- Body of the ontology-mode pass-2 loop for one raw dependency
(library.py lines 219-224): if the dependee name is in the batch-local
table the edge is attached (failures there are uncaught); otherwise only a
warning is logged and the edge is dropped. -/
def ontProcessDep (id_lookup : List (String × Nat)) (dependantId : Nat)
    (st : LState) (dep : OntDep) : LState × Option LoadErr :=
  match id_lookup.find? (fun p => p.1 = dep.template) with
  | some p =>
    match Template.load st.store p.2 with
    | .error e => (st, some e)
    | .ok dependee =>
      ({ st with
          store := (Template.add_dependency st.store dependantId dependee.id
            dep.args).1 },
       (Template.add_dependency st.store dependantId dependee.id dep.args).2)
  | none =>
    ({ st with warnings := st.warnings ++ ["Warning: could not find dependee"] },
     none)

/-- `Library._load_from_ontology_graph` (library.py lines 165-232).  The
pyshacl "expand" pre-pass is an external collaborator that rewrites the
graph in place, so per §4.4 the input here is the already-expanded ontology
fragment; the shape-to-template extractor
(`get_template_parts_from_shape`, an external utility) is the `extract`
argument.  The full input graph is finally merged into the library's shape
collection. -/
def Library.load_from_ontology_graph
    (extract : String → RDFGraph → RDFGraph × List OntDep)
    (g : RDFGraph) (st : LState) : LState × Except LoadErr Nat :=
  match ontology_name_of g with
  | .error e => (st, .error e)
  | .ok nameOpt =>
    match create_db_library st.store nameOpt with
    | .error e => (st, .error e)
    | .ok (lib, store') =>
      match ontPass1 extract g lib.id (candidatesOf g)
          { st := { st with store := store' }, lookup := [], cache := [] } with
      | (acc, some e) => (acc.st, .error e)
      | (acc, none) =>
        match pass2 (ontProcessDep acc.lookup) acc.cache
            (Library.get_templates acc.st.store lib.id) acc.st with
        | (st2, some e) => (st2, .error e)
        | (st2, none) =>
          ({ st2 with
              store := add_to_shape_collection st2.store lib.shape_collection_id g },
           .ok lib.id)

/-- Counter well-formedness of the store: template rows only reference
already-allocated library ids, so a freshly created library owns no
templates. -/
def Store.WF (s : Store) : Prop :=
  ∀ t ∈ s.templates, t.library_id < s.nextLibId

/-! ### Preservation lemmas about the loader passes -/

lemma foldE_proj_eq {α σ β : Type} (proj : σ → β)
    (f : σ → α → σ × Option LoadErr)
    (hf : ∀ s a, proj ((f s a).1) = proj s) :
    ∀ (l : List α) (s : σ), proj ((foldE f l s).1) = proj s := by
  intro l
  induction l with
  | nil => intro s; rfl
  | cons a rest ih =>
    intro s
    have hstep := hf s a
    unfold foldE
    rcases hfa : f s a with ⟨s', o⟩
    rw [hfa] at hstep
    rcases o with _ | e
    · exact (ih s').trans hstep
    · exact hstep

lemma insert_dep_row_templates (s : Store) (d e : Nat)
    (a : List (String × String)) :
    ((insert_dep_row s d e a).1).templates = s.templates := by
  unfold insert_dep_row; split <;> rfl

lemma insert_dep_row_libraries (s : Store) (d e : Nat)
    (a : List (String × String)) :
    ((insert_dep_row s d e a).1).libraries = s.libraries := by
  unfold insert_dep_row; split <;> rfl

lemma add_dependency_templates (s : Store) (a b : Nat)
    (args : List (String × String)) :
    ((Template.add_dependency s a b args).1).templates = s.templates := by
  unfold Template.add_dependency
  split
  · rfl
  · exact insert_dep_row_templates s a b args

lemma add_dependency_libraries (s : Store) (a b : Nat)
    (args : List (String × String)) :
    ((Template.add_dependency s a b args).1).libraries = s.libraries := by
  unfold Template.add_dependency
  split
  · rfl
  · exact insert_dep_row_libraries s a b args

lemma ontProcessDep_templates (id_lookup : List (String × Nat)) (tid : Nat)
    (st : LState) (dep : OntDep) :
    ((ontProcessDep id_lookup tid st dep).1).store.templates
      = st.store.templates := by
  rcases hfind : id_lookup.find? (fun p => p.1 = dep.template) with _ | p
  · simp [ontProcessDep, hfind]
  · rcases hload : Template.load st.store p.2 with e | dependee
    · simp [ontProcessDep, hfind, hload]
    · simp [ontProcessDep, hfind, hload, add_dependency_templates]

lemma ontProcessDep_libraries (id_lookup : List (String × Nat)) (tid : Nat)
    (st : LState) (dep : OntDep) :
    ((ontProcessDep id_lookup tid st dep).1).store.libraries
      = st.store.libraries := by
  rcases hfind : id_lookup.find? (fun p => p.1 = dep.template) with _ | p
  · simp [ontProcessDep, hfind]
  · rcases hload : Template.load st.store p.2 with e | dependee
    · simp [ontProcessDep, hfind, hload]
    · simp [ontProcessDep, hfind, hload, add_dependency_libraries]

lemma pass2_proj_eq {δ β : Type} (proj : LState → β)
    (processDep : Nat → LState → δ → LState × Option LoadErr)
    (hp : ∀ tid st dep, proj ((processDep tid st dep).1) = proj st)
    (cache : List (Nat × List δ)) (templates : List DBTemplate) (st : LState) :
    proj ((pass2 processDep cache templates st).1) = proj st := by
  unfold pass2
  refine foldE_proj_eq proj _ ?_ templates st
  intro s t
  rcases hfind : cache.find? (fun p => p.1 = t.id) with _ | p
  · rw [hfind]
  · rw [hfind]
    exact foldE_proj_eq proj (processDep t.id) (fun s' d => hp t.id s' d) p.2 s

lemma create_template_ok {s : Store} {libId : Nat} {name : String}
    {body : RDFGraph} {oargs : List String} {t : DBTemplate} {s' : Store}
    (h : Library.create_template s libId name body oargs = .ok (t, s')) :
    t.name = name ∧ t.library_id = libId ∧ t.id = s.nextTemplId
    ∧ s'.templates = s.templates ++ [t] ∧ s'.libraries = s.libraries
    ∧ s'.nextLibId = s.nextLibId ∧ s'.deps = s.deps := by
  unfold Library.create_template at h
  split at h
  · exact absurd h (by simp)
  · simp only [Except.ok.injEq, Prod.mk.injEq] at h
    obtain ⟨rfl, rfl⟩ := h
    exact ⟨rfl, rfl, rfl, rfl, rfl, rfl, rfl⟩

lemma create_db_library_ok {s : Store} {name : Option String}
    {lib : DBLibrary} {s' : Store}
    (h : create_db_library s name = .ok (lib, s')) :
    lib.id = s.nextLibId ∧ lib.name = name ∧ lib.shape_collection_id = s.nextSCId
    ∧ s'.templates = s.templates ∧ s'.libraries = s.libraries ++ [lib]
    ∧ s'.nextLibId = s.nextLibId + 1 ∧ s'.nextTemplId = s.nextTemplId
    ∧ s'.deps = s.deps := by
  unfold create_db_library at h
  split at h
  · exact absurd h (by simp)
  · simp only [Except.ok.injEq, Prod.mk.injEq] at h
    obtain ⟨rfl, rfl⟩ := h
    exact ⟨rfl, rfl, rfl, rfl, rfl, rfl, rfl, rfl⟩

lemma ontPass1_ok_templates (extract : String → RDFGraph → RDFGraph × List OntDep)
    (g : RDFGraph) (libId : Nat) :
    ∀ (cands : List String) (acc acc' : Pass1Acc OntDep),
      ontPass1 extract g libId cands acc = (acc', none) →
      ∃ created : List DBTemplate,
        acc'.st.store.templates = acc.st.store.templates ++ created
        ∧ created.map DBTemplate.name = cands
        ∧ ∀ t ∈ created, t.library_id = libId := by
  intro cands
  induction cands with
  | nil =>
    intro acc acc' h
    simp only [ontPass1, Prod.mk.injEq] at h
    obtain ⟨rfl, -⟩ := h
    exact ⟨[], by simp, rfl, by simp⟩
  | cons c rest ih =>
    intro acc acc' h
    rcases hc : Library.create_template acc.st.store libId c (extract c g).1 []
      with e | p
    · simp only [ontPass1, hc] at h
      simp at h
    · obtain ⟨t, store'⟩ := p
      simp only [ontPass1, hc] at h
      obtain ⟨created', h1, h2, h3⟩ := ih _ acc' h
      obtain ⟨hname, hlib, -, htempl, -, -, -⟩ := create_template_ok hc
      refine ⟨t :: created', ?_, ?_, ?_⟩
      · rw [h1]
        simp [htempl]
      · simp [h2, hname]
      · intro u hu
        rcases List.mem_cons.mp hu with rfl | hu
        · exact hlib
        · exact h3 u hu

lemma ontPass1_libraries (extract : String → RDFGraph → RDFGraph × List OntDep)
    (g : RDFGraph) (libId : Nat) :
    ∀ (cands : List String) (acc : Pass1Acc OntDep),
      ((ontPass1 extract g libId cands acc).1).st.store.libraries
        = acc.st.store.libraries := by
  intro cands
  induction cands with
  | nil => intro acc; rfl
  | cons c rest ih =>
    intro acc
    rcases hc : Library.create_template acc.st.store libId c (extract c g).1 []
      with e | p
    · simp [ontPass1, hc]
    · obtain ⟨t, store'⟩ := p
      obtain ⟨-, -, -, -, hlibs, -, -⟩ := create_template_ok hc
      simp only [ontPass1, hc]
      rw [ih]
      simp [hlibs]

lemma dirPass1_templates_append (dirName : String) (libId : Nat) :
    ∀ (entries : List DirEntry) (acc : Pass1Acc TemplateDependency),
      ∃ created : List DBTemplate,
        ((dirPass1 dirName libId entries acc).1).st.store.templates
          = acc.st.store.templates ++ created := by
  intro entries
  induction entries with
  | nil => intro acc; exact ⟨[], by simp [dirPass1]⟩
  | cons entry rest ih =>
    intro acc
    rcases hc : Library.create_template acc.st.store libId entry.name entry.body
        entry.optional with e | p
    · exact ⟨[], by simp [dirPass1, hc]⟩
    · obtain ⟨t, store'⟩ := p
      obtain ⟨-, -, -, htempl, -, -, -⟩ := create_template_ok hc
      obtain ⟨created', hcr⟩ := ih
        { st := { acc.st with store := store' }
          lookup := (t.name, t.id) :: acc.lookup
          cache := (t.id, entry.dependencies.map
            (fun d => TemplateDependency.from_dict d dirName)) :: acc.cache }
      refine ⟨t :: created', ?_⟩
      simp only [dirPass1, hc]
      rw [hcr]
      simp [htempl]

/-- The ontology loader, when it succeeds, has created exactly one library
row named after what `Graph.value` returned for the ontology declaration. -/
lemma load_from_ontology_ok_library
    (extract : String → RDFGraph → RDFGraph × List OntDep) (g : RDFGraph)
    (st st' : LState) (libId : Nat) (nameOpt : Option String)
    (hname : ontology_name_of g = .ok nameOpt)
    (hload : Library.load_from_ontology_graph extract g st = (st', .ok libId)) :
    ∃ lib ∈ st'.store.libraries, lib.id = libId ∧ lib.name = nameOpt := by
  unfold Library.load_from_ontology_graph at hload
  simp only [hname] at hload
  rcases hcreate : create_db_library st.store nameOpt with e | p
  · simp [hcreate] at hload
  · obtain ⟨lib, store₁⟩ := p
    simp only [hcreate] at hload
    rcases hp1 : ontPass1 extract g lib.id (candidatesOf g)
        { st := { st with store := store₁ }, lookup := [], cache := [] }
      with ⟨acc, _ | e⟩
    · simp only [hp1] at hload
      rcases hp2 : pass2 (ontProcessDep acc.lookup) acc.cache
          (Library.get_templates acc.st.store lib.id) acc.st with ⟨st2, _ | e⟩
      · simp only [hp2, Prod.mk.injEq, Except.ok.injEq] at hload
        obtain ⟨hst', hlibid2⟩ := hload
        obtain ⟨-, hlname, -, -, hlibs₁, -, -, -⟩ := create_db_library_ok hcreate
        refine ⟨lib, ?_, hlibid2, hlname⟩
        have hl1 := ontPass1_libraries extract g lib.id (candidatesOf g)
          { st := { st with store := store₁ }, lookup := [], cache := [] }
        rw [hp1] at hl1
        have hl2 := pass2_proj_eq (fun x => x.store.libraries)
          (ontProcessDep acc.lookup)
          (fun tid s d => ontProcessDep_libraries acc.lookup tid s d)
          acc.cache (Library.get_templates acc.st.store lib.id) acc.st
        rw [hp2] at hl2
        rw [← hst']
        show lib ∈ st2.store.libraries
        have : st2.store.libraries = store₁.libraries := hl2.trans hl1
        rw [this, hlibs₁]
        simp
      · simp [hp2] at hload
    · simp [hp1] at hload

/-- **C6.** When an ontology-mode load succeeds, the templates of the new
library are exactly one per candidate node — the nodes declared both an
`owl:Class` and a `sh:NodeShape` — and each template's name is its shape's
identifier. -/
theorem c6_ontology_one_template_per_candidate :
    ∀ (extract : String → RDFGraph → RDFGraph × List OntDep) (g : RDFGraph)
      (st st' : LState) (libId : Nat),
      Store.WF st.store →
      Library.load_from_ontology_graph extract g st = (st', .ok libId) →
      (Library.get_templates st'.store libId).map DBTemplate.name
        = candidatesOf g := by
  intro extract g st st' libId hwf hload
  unfold Library.load_from_ontology_graph at hload
  rcases hname : ontology_name_of g with e | nameOpt
  · simp [hname] at hload
  · simp only [hname] at hload
    rcases hcreate : create_db_library st.store nameOpt with e | p
    · simp [hcreate] at hload
    · obtain ⟨lib, store₁⟩ := p
      simp only [hcreate] at hload
      rcases hp1 : ontPass1 extract g lib.id (candidatesOf g)
          { st := { st with store := store₁ }, lookup := [], cache := [] }
        with ⟨acc, _ | e⟩
      · simp only [hp1] at hload
        rcases hp2 : pass2 (ontProcessDep acc.lookup) acc.cache
            (Library.get_templates acc.st.store lib.id) acc.st with ⟨st2, _ | e⟩
        · simp only [hp2, Prod.mk.injEq, Except.ok.injEq] at hload
          obtain ⟨hst', hlibid2⟩ := hload
          subst hlibid2
          obtain ⟨hlibid, -, -, htempl₁, -, -, -, -⟩ := create_db_library_ok hcreate
          obtain ⟨created, hcr1, hcr2, hcr3⟩ :=
            ontPass1_ok_templates extract g lib.id (candidatesOf g) _ acc hp1
          have htempl2 := pass2_proj_eq (fun x => x.store.templates)
            (ontProcessDep acc.lookup)
            (fun tid s d => ontProcessDep_templates acc.lookup tid s d)
            acc.cache (Library.get_templates acc.st.store lib.id) acc.st
          rw [hp2] at htempl2
          have hchain : st'.store.templates = st.store.templates ++ created := by
            rw [← hst']
            show st2.store.templates = st.store.templates ++ created
            rw [htempl2, hcr1]
            show store₁.templates ++ created = st.store.templates ++ created
            rw [htempl₁]
          unfold Library.get_templates
          rw [hchain, List.filter_append]
          have hold : st.store.templates.filter
              (fun t => decide (t.library_id = lib.id)) = [] := by
            rw [List.filter_eq_nil_iff]
            intro t ht
            have hlt := hwf t ht
            rw [hlibid]
            simp only [decide_eq_true_eq]
            omega
          have hnew : created.filter
              (fun t => decide (t.library_id = lib.id)) = created := by
            rw [List.filter_eq_self]
            intro t ht
            simp [hcr3 t ht]
          rw [hold, hnew, List.nil_append, hcr2]
        · simp [hp2] at hload
      · simp [hp1] at hload

/-- Witness for C6 at a concrete graph: one ontology declaration and one
class-and-shape node "urn:c" load into a library whose template names are
exactly the candidate list. -/
theorem c6_ontology_one_template_per_candidate_witness :
    (Library.get_templates
      (Library.load_from_ontology_graph (fun _ _ => ([], []))
        [⟨"urn:ont", rdfType, owlOntology⟩,
         ⟨"urn:c", rdfType, owlClass⟩,
         ⟨"urn:c", rdfType, shNodeShape⟩]
        { store := emptyStore, warnings := [] }).1.store 0).map DBTemplate.name
      = candidatesOf
        [⟨"urn:ont", rdfType, owlOntology⟩,
         ⟨"urn:c", rdfType, owlClass⟩,
         ⟨"urn:c", rdfType, shNodeShape⟩] := by
  exact c6_ontology_one_template_per_candidate (fun _ _ => ([], []))
    [⟨"urn:ont", rdfType, owlOntology⟩,
     ⟨"urn:c", rdfType, owlClass⟩,
     ⟨"urn:c", rdfType, shNodeShape⟩]
    { store := emptyStore, warnings := [] }
    (Library.load_from_ontology_graph (fun _ _ => ([], []))
      [⟨"urn:ont", rdfType, owlOntology⟩,
       ⟨"urn:c", rdfType, owlClass⟩,
       ⟨"urn:c", rdfType, shNodeShape⟩]
      { store := emptyStore, warnings := [] }).1
    0 (fun t ht => absurd ht (List.not_mem_nil t)) rfl

/-- **C3 (amended).** Ontology-mode loading names the library after the
graph's single declared ontology identifier, and fails with the uniqueness
("ambiguous ontology") error when more than one ontology is declared; with
zero declarations, however, `Graph.value` returns its default `None` and no
such error is raised — the loader proceeds and creates a library with no
name. -/
theorem c3_ontology_naming_and_ambiguity :
    ∀ (extract : String → RDFGraph → RDFGraph × List OntDep) (g : RDFGraph)
      (st : LState),
      (∀ s, subjectsOf g rdfType owlOntology = [s] →
        ontology_name_of g = .ok (some s)
        ∧ ∀ st' libId,
            Library.load_from_ontology_graph extract g st = (st', .ok libId) →
            ∃ lib ∈ st'.store.libraries, lib.id = libId ∧ lib.name = some s)
      ∧ (2 ≤ (subjectsOf g rdfType owlOntology).length →
          Library.load_from_ontology_graph extract g st
            = (st, .error .uniquenessError))
      ∧ (subjectsOf g rdfType owlOntology = [] →
          ontology_name_of g = .ok none) := by
  intro extract g st
  refine ⟨?_, ?_, ?_⟩
  · intro s hs
    have hname : ontology_name_of g = .ok (some s) := by
      unfold ontology_name_of
      rw [hs]
    refine ⟨hname, ?_⟩
    intro st' libId hload
    exact load_from_ontology_ok_library extract g st st' libId (some s) hname hload
  · intro hlen
    have hname : ontology_name_of g = .error .uniquenessError := by
      unfold ontology_name_of
      rcases hsub : subjectsOf g rdfType owlOntology with _ | ⟨a, _ | ⟨b, l⟩⟩
      · rw [hsub] at hlen; simp at hlen
      · rw [hsub] at hlen; simp at hlen
      · rfl
    unfold Library.load_from_ontology_graph
    rw [hname]
  · intro hs
    unfold ontology_name_of
    rw [hs]

/-- Counterexample for C3: a graph declaring zero ontologies does not fail
with the ambiguity error — the load completes, returning a new library. -/
theorem c3_counterexample_zero_declarations_load_succeeds :
    (Library.load_from_ontology_graph (fun _ _ => ([], []))
      [⟨"urn:c", rdfType, owlClass⟩]
      { store := emptyStore, warnings := [] }).2 = .ok 0
    ∧ (Library.load_from_ontology_graph (fun _ _ => ([], []))
      [⟨"urn:c", rdfType, owlClass⟩]
      { store := emptyStore, warnings := [] }).1.store.libraries
      = [{ id := 0, name := none, shape_collection_id := 0 }] := by
  constructor <;> rfl

/-- Witness for C3 at a concrete graph: a single ontology declaration
"urn:o1" is read as the library name, and two declarations yield the
uniqueness error. -/
theorem c3_ontology_naming_and_ambiguity_witness :
    ontology_name_of [⟨"urn:o1", rdfType, owlOntology⟩] = .ok (some "urn:o1")
    ∧ (Library.load_from_ontology_graph (fun _ _ => ([], []))
        [⟨"urn:o1", rdfType, owlOntology⟩, ⟨"urn:o2", rdfType, owlOntology⟩]
        { store := emptyStore, warnings := [] })
      = ({ store := emptyStore, warnings := [] }, .error .uniquenessError) := by
  constructor
  · exact ((c3_ontology_naming_and_ambiguity (fun _ _ => ([], []))
      [⟨"urn:o1", rdfType, owlOntology⟩]
      { store := emptyStore, warnings := [] }).1 "urn:o1" (by rfl)).1
  · exact (c3_ontology_naming_and_ambiguity (fun _ _ => ([], []))
      [⟨"urn:o1", rdfType, owlOntology⟩, ⟨"urn:o2", rdfType, owlOntology⟩]
      { store := emptyStore, warnings := [] }).2.1 (by rfl)

/-- Counterexample for C1: in directory mode, a raw dependency spec that
fails to resolve in pass 2 is reported as a warning but the exception is
re-raised, so the load aborts with an error instead of continuing. -/
theorem c1_counterexample_directory_resolution_failure_aborts :
    (Library.load_from_directory "mylib"
      [{ name := "a", body := [], optional := [],
         dependencies := [{ template := "missing", args := [], library := none,
                            template_id := none }] }]
      [] { store := emptyStore, warnings := [] }).2
      = .error (.noResultFound "template name")
    ∧ (Library.load_from_directory "mylib"
      [{ name := "a", body := [], optional := [],
         dependencies := [{ template := "missing", args := [], library := none,
                            template_id := none }] }]
      [] { store := emptyStore, warnings := [] }).1.warnings
      = ["Warning: could not resolve dependency"] := by
  constructor <;> rfl

/-- **C1 (amended).** When a raw dependency spec fails to resolve during
pass 2: in ontology mode the failure is reported as a warning, the edge is
dropped, and processing continues; in directory mode the failure is
reported as a warning and then the exception is re-raised, aborting the
load. -/
theorem c1_resolution_failure_mode_dependent :
    ∀ (id_lookup : List (String × Nat)) (tid : Nat) (st : LState),
      (∀ dep : OntDep,
        id_lookup.find? (fun p => p.1 = dep.template) = none →
        ontProcessDep id_lookup tid st dep =
          ({ st with
              warnings := st.warnings ++ ["Warning: could not find dependee"] },
           none))
      ∧ (∀ (dep : TemplateDependency) (e : LoadErr),
          dep.to_template id_lookup st.store = .error e →
          dirProcessDep id_lookup tid st dep =
            ({ st with
                warnings := st.warnings
                  ++ ["Warning: could not resolve dependency"] },
             some e)) := by
  intro id_lookup tid st
  constructor
  · intro dep h
    simp [ontProcessDep, h]
  · intro dep e h
    simp [dirProcessDep, h]

/-- Witness for C1 at a concrete state: an unresolvable ontology-mode spec
is only logged and processing continues with no error. -/
theorem c1_resolution_failure_mode_dependent_witness :
    ontProcessDep [] 0 { store := emptyStore, warnings := [] } ⟨"x", []⟩
      = ({ store := emptyStore,
           warnings := ["Warning: could not find dependee"] }, none) :=
  (c1_resolution_failure_mode_dependent [] 0
    { store := emptyStore, warnings := [] }).1 ⟨"x", []⟩ rfl

/-- Counterexample for C2: a directory whose third entry fails to create
(duplicate name "a" in the same library) aborts the load, but the two
templates created from the earlier entries remain persisted — not zero. -/
theorem c2_counterexample_earlier_templates_persist :
    (Library.load_from_directory "dir"
      [{ name := "a", body := [] }, { name := "b", body := [] },
       { name := "a", body := [] }]
      [] { store := emptyStore, warnings := [] }).2
      = .error (.integrityError "template name not unique in library")
    ∧ (Library.get_templates
        (Library.load_from_directory "dir"
          [{ name := "a", body := [] }, { name := "b", body := [] },
           { name := "a", body := [] }]
          [] { store := emptyStore, warnings := [] }).1.store 0).length = 2 := by
  constructor <;> rfl

/-- **C2 (amended).** If creating any single template fails during a
directory-mode load, the entire load aborts immediately — the loader
returns the creation error and the pass-1 state, so no later entry is
processed and pass 2 and shape loading never run — but the templates
created from entries before the failing one persist in the store (no
rollback). -/
theorem c2_create_failure_aborts_without_rollback :
    ∀ (dirName : String) (entries : List DirEntry) (shapeGraph : RDFGraph)
      (st : LState) (lib : DBLibrary) (store₁ : Store)
      (acc' : Pass1Acc TemplateDependency) (e : LoadErr),
      create_db_library st.store (some dirName) = .ok (lib, store₁) →
      dirPass1 dirName lib.id entries
        { st := { st with store := store₁ }, lookup := [], cache := [] }
        = (acc', some e) →
      Library.load_from_directory dirName entries shapeGraph st
        = (acc'.st, .error e)
      ∧ ∃ created, acc'.st.store.templates = st.store.templates ++ created := by
  intro dirName entries shapeGraph st lib store₁ acc' e hcreate hp1
  constructor
  · unfold Library.load_from_directory
    simp only [hcreate, hp1]
  · obtain ⟨-, -, -, htempl₁, -, -, -, -⟩ := create_db_library_ok hcreate
    obtain ⟨created, hcr⟩ := dirPass1_templates_append dirName lib.id entries
      { st := { st with store := store₁ }, lookup := [], cache := [] }
    rw [hp1] at hcr
    refine ⟨created, ?_⟩
    calc acc'.st.store.templates = store₁.templates ++ created := hcr
      _ = st.store.templates ++ created := by rw [htempl₁]

/-- The three-entry directory used to exercise C2: the third entry reuses
the name "a" and so fails to create. -/
def c2entries : List DirEntry :=
  [{ name := "a", body := [] }, { name := "b", body := [] },
   { name := "a", body := [] }]

/-- The store right after `Library.create("dir")` on an empty store. -/
def c2store1 : Store :=
  { libraries := [{ id := 0, name := some "dir", shape_collection_id := 0 }]
    templates := []
    deps := []
    shape_collections := [{ id := 0, graph := [] }]
    nextLibId := 1, nextTemplId := 0, nextSCId := 1, nextDepId := 0 }

/-- The store at which the C2 scenario aborts: templates "a" and "b"
created, the duplicate "a" rejected. -/
def c2storeAborted : Store :=
  { libraries := [{ id := 0, name := some "dir", shape_collection_id := 0 }]
    templates :=
      [{ id := 0, name := "a", library_id := 0, body := [], optional_args := [] },
       { id := 1, name := "b", library_id := 0, body := [], optional_args := [] }]
    deps := []
    shape_collections := [{ id := 0, graph := [] }]
    nextLibId := 1, nextTemplId := 2, nextSCId := 1, nextDepId := 0 }

/-- The pass-1 accumulator at the abort point of the C2 scenario. -/
def c2acc : Pass1Acc TemplateDependency :=
  { st := { store := c2storeAborted, warnings := ["Error creating template"] }
    lookup := [("b", 1), ("a", 0)]
    cache := [(1, []), (0, [])] }

/-- Witness for C2 on the concrete three-entry directory: the load aborts
with the creation error, returning the pass-1 state that still holds
templates "a" and "b". -/
theorem c2_create_failure_aborts_without_rollback_witness :
    Library.load_from_directory "dir" c2entries []
      { store := emptyStore, warnings := [] }
      = (c2acc.st, .error (.integrityError "template name not unique in library")) :=
  (c2_create_failure_aborts_without_rollback "dir" c2entries []
    { store := emptyStore, warnings := [] }
    { id := 0, name := some "dir", shape_collection_id := 0 }
    c2store1 c2acc (.integrityError "template name not unique in library")
    (by rfl) (by rfl)).1

/-- A store persisting a library "L" that owns a template "X": the target
that §4.2 step 3 would find for the C4 scenario. -/
def c4store : Store :=
  { libraries := [{ id := 0, name := some "L", shape_collection_id := 0 }]
    templates :=
      [{ id := 0, name := "X", library_id := 0, body := [], optional_args := [] }]
    deps := []
    shape_collections := [{ id := 0, graph := [] }]
    nextLibId := 1, nextTemplId := 1, nextSCId := 1, nextDepId := 0 }

/-- An ontology graph with one declaration and one candidate shape. -/
def c4g : RDFGraph :=
  [⟨"urn:ont", rdfType, owlOntology⟩,
   ⟨"urn:c", rdfType, owlClass⟩,
   ⟨"urn:c", rdfType, shNodeShape⟩]

/-- An extractor reporting one raw dependency on the template named "X". -/
def c4extract : String → RDFGraph → RDFGraph × List OntDep :=
  fun _ _ => ([], [⟨"X", []⟩])

/-- Counterexample for C4: the ontology-mode load drops the dependency on
"X" with only a warning — no edge is recorded — even though the full §4.2
procedure (`to_template`, step 3: look up the named library, then the
template within it) resolves the very same spec against the same store. -/
theorem c4_counterexample_no_library_fallback :
    (Library.load_from_ontology_graph c4extract c4g
      { store := c4store, warnings := [] }).2 = .ok 1
    ∧ (Library.load_from_ontology_graph c4extract c4g
      { store := c4store, warnings := [] }).1.store.deps = []
    ∧ (Library.load_from_ontology_graph c4extract c4g
      { store := c4store, warnings := [] }).1.warnings
        = ["Warning: could not find dependee"]
    ∧ TemplateDependency.to_template ⟨"X", [], "L", none⟩ [] c4store
        = .ok { id := 0, name := "X", library_id := 0, body := []
                optional_args := [] } :=
  ⟨rfl, rfl, rfl, rfl⟩

/-- **C4 (amended).** In ontology mode, each cached raw dependency spec is
resolved solely against the batch-local name table: a miss is reported and
the edge dropped (the store untouched, even if a persisted library holds a
template of that name), and a hit attaches the edge to the template with
the cached id; the explicit-identifier and named-library steps of §4.2 are
never performed. -/
theorem c4_ontology_resolution_uses_batch_table_only :
    ∀ (id_lookup : List (String × Nat)) (tid : Nat) (st : LState) (dep : OntDep),
      (id_lookup.find? (fun p => p.1 = dep.template) = none →
        (ontProcessDep id_lookup tid st dep).1.store = st.store
        ∧ (ontProcessDep id_lookup tid st dep).2 = none
        ∧ (ontProcessDep id_lookup tid st dep).1.warnings
            = st.warnings ++ ["Warning: could not find dependee"])
      ∧ (∀ p, id_lookup.find? (fun q => q.1 = dep.template) = some p →
          ontProcessDep id_lookup tid st dep =
            (match Template.load st.store p.2 with
             | .error e => (st, some e)
             | .ok dependee =>
               ({ st with
                   store := (Template.add_dependency st.store tid dependee.id
                     dep.args).1 },
                (Template.add_dependency st.store tid dependee.id dep.args).2))) := by
  intro id_lookup tid st dep
  constructor
  · intro h
    refine ⟨?_, ?_, ?_⟩ <;> simp [ontProcessDep, h]
  · intro p h
    simp [ontProcessDep, h]

/-- Witness for C4 at the concrete C4 store: the unresolved dependency on
"X" leaves the store untouched and only logs a warning. -/
theorem c4_ontology_resolution_uses_batch_table_only_witness :
    (ontProcessDep [] 7 { store := c4store, warnings := [] } ⟨"X", []⟩).1.store
      = c4store
    ∧ (ontProcessDep [] 7 { store := c4store, warnings := [] } ⟨"X", []⟩).2
      = none :=
  have h := (c4_ontology_resolution_uses_batch_table_only [] 7
    { store := c4store, warnings := [] } ⟨"X", []⟩).1 rfl
  ⟨h.1, h.2.1⟩
